import Mathlib

/-!
Shallow embedding of the forecast service (src/main.rs).

The program is an HTTP weather service.  Its core is a cache-aside
coordinate resolver: `get_lat_long` looks a city name up in a Postgres
table, falls back to an external geocoding HTTP call on a miss, and
persists the fetched coordinates.  We embed the state explicitly:

* the database table `cities` becomes a `Store` (a list of rows with a
  monotone id counter, mirroring the serial primary key);
* the geocoding HTTP layer becomes a function `String → GeoResult`,
  where `GeoResult.netErr` stands for any network or JSON-parse failure
  (the code folds both into `None` via `.ok()?`);
* possible `sqlx` failures of the two database statements inside
  `get_lat_long` are injected through a `DbFaults` record;
* `f64` coordinate and temperature values are modelled as `Rat`; the
  program performs no arithmetic on them, only transport and equality.

The resolver additionally reports how many geocoding calls it performed
(`geoCalls`), which lets us state the no-external-call cache properties.
-/

namespace Forecast

/-- Coordinates, `struct LatLong { lat: f64, lng: f64 }`. -/
structure LatLong where
  lat : Rat
  lng : Rat
deriving DecidableEq, Repr

/-- One row of the `cities` table: serial `id`, `name`, `lat`, `lng`. -/
structure Row where
  id : Nat
  name : String
  lat : Rat
  lng : Rat
deriving DecidableEq, Repr

/-- The `cities` table: rows in insertion order plus the next serial id. -/
structure Store where
  rows : List Row
  nextId : Nat
deriving DecidableEq, Repr

/-- An abstract `sqlx::Error` (only its identity matters here). -/
structure DbError where
  code : Nat
deriving DecidableEq, Repr

/-- `enum Error` of the program; `Database` wraps the sqlx error
(`impl From<sqlx::Error> for Error`). -/
inductive Error where
  | NoResultsFound
  | FetchWeather
  | Unauthorized
  | Database (e : DbError)
deriving DecidableEq, Repr

/-- Outcome of the geocoding HTTP exchange for one city: either a
network/parse failure (`reqwest::get(..).ok()?` / `.json().ok()?`
returning `None`) or a parsed `GeoResponse { results }`. -/
inductive GeoResult where
  | netErr
  | ok (results : List LatLong)
deriving DecidableEq, Repr

/-- `fetch_lat_long`: on any network or parse error the chain of `?`
yields `None`; otherwise the first candidate of `res.results`. -/
def fetch_lat_long (geo : String → GeoResult) (city : String) : Option LatLong :=
  match geo city with
  | .netErr => none
  | .ok results => results.head?

/-- `SELECT lat, lng FROM cities WHERE name = $1` with `fetch_optional`:
the first row whose `name` equals the key exactly. -/
def lookupCity (rows : List Row) (name : String) : Option LatLong :=
  (rows.find? fun r => r.name == name).map fun r => ⟨r.lat, r.lng⟩

/-- Fault injection for the two sqlx statements inside `get_lat_long`:
`lookupErr` makes the SELECT fail, `insertErr` makes the INSERT fail. -/
structure DbFaults where
  lookupErr : Option DbError
  insertErr : Option DbError
deriving DecidableEq, Repr

/-- Result of one `get_lat_long` call: the returned value, the store
after the call, and how many geocoding calls were made. -/
structure ResolveResult where
  out : Except Error LatLong
  store : Store
  geoCalls : Nat

/-- `get_lat_long`: SELECT by name; on a hit return the stored pair; on a
miss call `fetch_lat_long`, fail with `NoResultsFound` on `None`, else
INSERT the pair under the name and return it.  Any sqlx error is wrapped
as `Error::Database` via `From` and aborts (`?`). -/
def get_lat_long (db : DbFaults) (geo : String → GeoResult) (store : Store)
    (name : String) : ResolveResult :=
  match db.lookupErr with
  | some e => ⟨.error (.Database e), store, 0⟩
  | none =>
    match lookupCity store.rows name with
    | some ll => ⟨.ok ll, store, 0⟩
    | none =>
      match fetch_lat_long geo name with
      | none => ⟨.error .NoResultsFound, store, 1⟩
      | some ll =>
        match db.insertErr with
        | some e => ⟨.error (.Database e), store, 1⟩
        | none =>
          ⟨.ok ll, ⟨store.rows ++ [⟨store.nextId, name, ll.lat, ll.lng⟩], store.nextId + 1⟩, 1⟩

/-- Fixed part of the geocoding URL before the interpolated city name
(from the `format!` string in `fetch_lat_long`). -/
def geoUrlPrefix : String := "https://geocoding-api.open-meteo.com/v1/search?name="

/-- Fixed part of the geocoding URL after the interpolated city name. -/
def geoUrlSuffix : String := "&count=1&language=en&format=json"

/-- The endpoint string built by `fetch_lat_long`: the city name is
interpolated verbatim between the two fixed parts. -/
def fetch_endpoint (city : String) : String := geoUrlPrefix ++ city ++ geoUrlSuffix

/-- An HTTP request as the reqwest layer sees it. -/
structure HttpRequest where
  method : String
  url : String
deriving DecidableEq, Repr

/-- The request issued by `fetch_lat_long`: `reqwest::get` performs a GET
on the formatted endpoint. -/
def fetch_request (city : String) : HttpRequest := ⟨"GET", fetch_endpoint city⟩

/-- Spec-side definition of URL escaping (percent-encoding) of a single
ASCII character: unreserved characters pass through, everything else
becomes `%XX`.  This follows the spec's words ("city name (URL-escaped)")
and exists only to compare against the endpoint the source builds. -/
def urlEscapeChar (c : Char) : String :=
  if c.isAlphanum || c == '-' || c == '_' || c == '.' || c == '~' then
    String.singleton c
  else
    let n := c.toNat
    let hexDigit := fun m : Nat => if m < 10 then Char.ofNat (48 + m) else Char.ofNat (55 + m)
    String.mk ['%', hexDigit (n / 16), hexDigit (n % 16)]

/-- Spec-side URL escaping of a whole (ASCII) string. -/
def urlEscape (s : String) : String := String.join (s.toList.map urlEscapeChar)

/-- `struct Hourly { time: Vec<String>, temperature_2m: Vec<f64> }`. -/
structure Hourly where
  time : List String
  temperature_2m : List Rat
deriving DecidableEq, Repr

/-- `struct WeatherResponse { hourly: Hourly }`. -/
structure WeatherResponse where
  hourly : Hourly
deriving DecidableEq, Repr

/-- `struct Forecast { date: String, temperature: f64 }`. -/
structure Forecast where
  date : String
  temperature : Rat
deriving DecidableEq, Repr

/-- `struct WeatherView { city, forecasts }`. -/
structure WeatherView where
  city : String
  forecasts : List Forecast
deriving DecidableEq, Repr

/-- `WeatherView::new`: zip the hourly time and temperature sequences
pairwise into `Forecast` values. -/
def WeatherView.new (city : String) (response : WeatherResponse) : WeatherView :=
  ⟨city, (response.hourly.time.zip response.hourly.temperature_2m).map fun p => ⟨p.1, p.2⟩⟩

/-- The challenge value sent on denial (`AUTH_SCHEME_VALUE` in
`Error::into_response`). -/
def AUTH_SCHEME_VALUE : String := "Basic realm=\"Please enter your credentials\""

/-- The `WWW-Authenticate` header name. -/
def WWW_AUTHENTICATE : String := "www-authenticate"

/-- `User::from_request_parts`: `none` models a missing or unparseable
`Authorization: Basic` header (rejected as `Unauthorized`); otherwise the
username/password pair is matched against the fixed expected pair. -/
def from_request_parts (auth : Option (String × String)) : Except Error Unit :=
  match auth with
  | none => .error .Unauthorized
  | some (u, p) =>
    match u, p with
    | "forecast", "forecast" => .ok ()
    | _, _ => .error .Unauthorized

/-- An HTTP response: status code, headers, body. -/
structure HttpResponse where
  status : Nat
  headers : List (String × String)
  body : String
deriving DecidableEq, Repr

/-- `impl IntoResponse for Error`: maps each error to its status, headers
and body; only `Unauthorized` carries the challenge header. -/
def Error.into_response : Error → HttpResponse
  | .NoResultsFound => ⟨404, [], "no results found"⟩
  | .FetchWeather => ⟨405, [], "failed to fetch weather"⟩
  | .Unauthorized => ⟨401, [(WWW_AUTHENTICATE, AUTH_SCHEME_VALUE)], "unauthorized"⟩
  | .Database _ => ⟨500, [], "internal server error"⟩

/-- The order `ORDER BY id DESC`: `a` precedes `b` when `b.id ≤ a.id`. -/
def rowGe (a b : Row) : Prop := b.id ≤ a.id

instance : DecidableRel rowGe := fun a b => Nat.decLe b.id a.id

instance : IsTotal Row rowGe := ⟨fun a b => Nat.le_total b.id a.id⟩

instance : IsTrans Row rowGe := ⟨fun _ _ _ hab hbc => Nat.le_trans hbc hab⟩

/-- Rows sorted by id descending, as `ORDER BY id DESC` produces them. -/
def sortByIdDesc (l : List Row) : List Row := List.insertionSort rowGe l

/-- `SELECT name FROM cities ORDER BY id DESC LIMIT 10`. -/
def statsQuery (store : Store) : List String :=
  ((sortByIdDesc store.rows).map Row.name).take 10

/-- The `stats` handler: the `User` extractor (credential check) runs
first; then the query, whose possible sqlx failure is injected via
`dbErr`, is propagated with `?`. -/
def stats (auth : Option (String × String)) (dbErr : Option DbError)
    (store : Store) : Except Error (List String) :=
  match from_request_parts auth with
  | .error e => .error e
  | .ok _ =>
    match dbErr with
    | some e => .error (.Database e)
    | none => .ok (statsQuery store)

/-! ### Helper lemmas -/

theorem lookupCity_find?_none {rows : List Row} {name : String}
    (h : lookupCity rows name = none) :
    rows.find? (fun r => r.name == name) = none :=
  Option.map_eq_none'.mp h

theorem lookupCity_append_key {rows : List Row} {name : String} (r : Row)
    (h : lookupCity rows name = none) (hr : r.name = name) :
    lookupCity (rows ++ [r]) name = some ⟨r.lat, r.lng⟩ := by
  unfold lookupCity
  rw [List.find?_append, lookupCity_find?_none h]
  simp [List.find?, hr]

theorem get_lat_long_no_candidates {db : DbFaults} {geo : String → GeoResult}
    {store : Store} {name : String}
    (hdb : db.lookupErr = none)
    (hmiss : lookupCity store.rows name = none)
    (hfetch : fetch_lat_long geo name = none) :
    get_lat_long db geo store name = ⟨.error .NoResultsFound, store, 1⟩ := by
  simp [get_lat_long, hdb, hmiss, hfetch]

/-! ### Claims -/

/-- C1: for a name already recorded in the Store, `get_lat_long` returns
exactly the stored coordinates and makes no geocoding call; and after a
first successful resolution of an unseen name (one geocoding call), a
second resolution of the same name makes no geocoding call. -/
theorem c1_cache_hit_and_idempotence
    (db : DbFaults) (geo : String → GeoResult) (s1 s2 : Store)
    (name1 name2 : String) (ll c : LatLong) (cs : List LatLong)
    (hdb : db.lookupErr = none) (hins : db.insertErr = none)
    (hhit : lookupCity s1.rows name1 = some ll)
    (hmiss : lookupCity s2.rows name2 = none)
    (hgeo : geo name2 = .ok (c :: cs)) :
    get_lat_long db geo s1 name1 = ⟨.ok ll, s1, 0⟩ ∧
    (get_lat_long db geo s2 name2).geoCalls = 1 ∧
    (get_lat_long db geo (get_lat_long db geo s2 name2).store name2).geoCalls = 0 := by
  have hres : get_lat_long db geo s2 name2 =
      ⟨.ok c, ⟨s2.rows ++ [⟨s2.nextId, name2, c.lat, c.lng⟩], s2.nextId + 1⟩, 1⟩ := by
    simp [get_lat_long, fetch_lat_long, hdb, hins, hmiss, hgeo]
  refine ⟨by simp [get_lat_long, hdb, hhit], by rw [hres], ?_⟩
  rw [hres]
  have hhit2 := lookupCity_append_key ⟨s2.nextId, name2, c.lat, c.lng⟩ hmiss rfl
  simp [get_lat_long, hdb, hhit2]

/-- C1 witness: a concrete cache hit on "Paris" and a concrete
miss-then-hit sequence on "Lyon". -/
theorem c1_witness :
    ((⟨none, none⟩ : DbFaults).lookupErr = none ∧
     (⟨none, none⟩ : DbFaults).insertErr = none ∧
     lookupCity (⟨[⟨0, "Paris", 9, 2⟩], 1⟩ : Store).rows "Paris" = some ⟨9, 2⟩ ∧
     lookupCity (⟨[], 0⟩ : Store).rows "Lyon" = none ∧
     (fun _ : String => GeoResult.ok [⟨45, 4⟩]) "Lyon" = .ok (⟨45, 4⟩ :: [])) ∧
    (get_lat_long ⟨none, none⟩ (fun _ : String => GeoResult.ok [⟨45, 4⟩])
        ⟨[⟨0, "Paris", 9, 2⟩], 1⟩ "Paris" = ⟨.ok ⟨9, 2⟩, ⟨[⟨0, "Paris", 9, 2⟩], 1⟩, 0⟩ ∧
     (get_lat_long ⟨none, none⟩ (fun _ : String => GeoResult.ok [⟨45, 4⟩])
        ⟨[], 0⟩ "Lyon").geoCalls = 1 ∧
     (get_lat_long ⟨none, none⟩ (fun _ : String => GeoResult.ok [⟨45, 4⟩])
        (get_lat_long ⟨none, none⟩ (fun _ : String => GeoResult.ok [⟨45, 4⟩])
          ⟨[], 0⟩ "Lyon").store "Lyon").geoCalls = 0) :=
  ⟨⟨rfl, rfl, rfl, rfl, rfl⟩,
   c1_cache_hit_and_idempotence _ _ _ _ _ _ _ _ _ rfl rfl rfl rfl rfl⟩

/-- C2: on a miss, when the geocoding client returns a non-empty
candidate list, `get_lat_long` returns the first candidate and the Store
afterwards contains that record under exactly the queried name. -/
theorem c2_miss_then_populate
    (geo : String → GeoResult) (store : Store) (name : String)
    (c : LatLong) (cs : List LatLong)
    (hmiss : lookupCity store.rows name = none)
    (hgeo : geo name = .ok (c :: cs)) :
    get_lat_long ⟨none, none⟩ geo store name =
      ⟨.ok c, ⟨store.rows ++ [⟨store.nextId, name, c.lat, c.lng⟩], store.nextId + 1⟩, 1⟩ ∧
    lookupCity (get_lat_long ⟨none, none⟩ geo store name).store.rows name = some c := by
  have hres : get_lat_long ⟨none, none⟩ geo store name =
      ⟨.ok c, ⟨store.rows ++ [⟨store.nextId, name, c.lat, c.lng⟩], store.nextId + 1⟩, 1⟩ := by
    simp [get_lat_long, fetch_lat_long, hmiss, hgeo]
  exact ⟨hres, by rw [hres]; exact lookupCity_append_key _ hmiss rfl⟩

/-- C2 witness: resolving "Lyon" against an empty store with one
candidate populates the store. -/
theorem c2_witness :
    (lookupCity (⟨[], 0⟩ : Store).rows "Lyon" = none ∧
     (fun _ : String => GeoResult.ok [⟨45, 4⟩]) "Lyon" = .ok (⟨45, 4⟩ :: [])) ∧
    (get_lat_long ⟨none, none⟩ (fun _ : String => GeoResult.ok [⟨45, 4⟩]) ⟨[], 0⟩ "Lyon" =
       ⟨.ok ⟨45, 4⟩, ⟨[⟨0, "Lyon", 45, 4⟩], 1⟩, 1⟩ ∧
     lookupCity (get_lat_long ⟨none, none⟩ (fun _ : String => GeoResult.ok [⟨45, 4⟩])
       ⟨[], 0⟩ "Lyon").store.rows "Lyon" = some ⟨45, 4⟩) :=
  ⟨⟨rfl, rfl⟩, c2_miss_then_populate _ _ _ _ _ rfl rfl⟩

/-- C3: on a miss, when the geocoding client returns an empty candidate
list, `get_lat_long` fails with `NoResultsFound` and the Store is left
unchanged. -/
theorem c3_no_match_propagation
    (db : DbFaults) (geo : String → GeoResult) (store : Store) (name : String)
    (hdb : db.lookupErr = none)
    (hmiss : lookupCity store.rows name = none)
    (hgeo : geo name = .ok []) :
    get_lat_long db geo store name = ⟨.error .NoResultsFound, store, 1⟩ :=
  get_lat_long_no_candidates hdb hmiss (by simp [fetch_lat_long, hgeo])

/-- C3 witness: "Nowhereville" with a zero-result geocoder. -/
theorem c3_witness :
    ((⟨none, none⟩ : DbFaults).lookupErr = none ∧
     lookupCity (⟨[], 0⟩ : Store).rows "Nowhereville" = none ∧
     (fun _ : String => GeoResult.ok []) "Nowhereville" = .ok []) ∧
    get_lat_long ⟨none, none⟩ (fun _ : String => GeoResult.ok []) ⟨[], 0⟩ "Nowhereville" =
      ⟨.error .NoResultsFound, ⟨[], 0⟩, 1⟩ :=
  ⟨⟨rfl, rfl, rfl⟩, c3_no_match_propagation _ _ _ _ rfl rfl rfl⟩

/-- C4: a storage error during the lookup, or during the insert, makes
`get_lat_long` fail with the wrapped database error and leaves the Store
unchanged; in the insert case this happens even though the geocoding
lookup already succeeded. -/
theorem c4_storage_failure
    (db : DbFaults) (geo : String → GeoResult) (store : Store) (name : String)
    (e : DbError) (c : LatLong) (cs : List LatLong) :
    (db.lookupErr = some e →
       get_lat_long db geo store name = ⟨.error (.Database e), store, 0⟩) ∧
    (db.lookupErr = none → db.insertErr = some e →
       lookupCity store.rows name = none → geo name = .ok (c :: cs) →
       get_lat_long db geo store name = ⟨.error (.Database e), store, 1⟩) := by
  constructor
  · intro h
    simp [get_lat_long, h]
  · intro hl hi hmiss hgeo
    simp [get_lat_long, fetch_lat_long, hl, hi, hmiss, hgeo]

/-- C4 witness: a failing SELECT and a failing INSERT, each aborting the
resolution with the database error. -/
theorem c4_witness :
    ((⟨some ⟨7⟩, none⟩ : DbFaults).lookupErr = some ⟨7⟩ ∧
     (⟨none, some ⟨8⟩⟩ : DbFaults).lookupErr = none ∧
     (⟨none, some ⟨8⟩⟩ : DbFaults).insertErr = some ⟨8⟩ ∧
     lookupCity (⟨[], 0⟩ : Store).rows "Lyon" = none ∧
     (fun _ : String => GeoResult.ok [⟨45, 4⟩]) "Lyon" = .ok (⟨45, 4⟩ :: [])) ∧
    (get_lat_long ⟨some ⟨7⟩, none⟩ (fun _ : String => GeoResult.ok [⟨45, 4⟩]) ⟨[], 0⟩ "Lyon" =
       ⟨.error (.Database ⟨7⟩), ⟨[], 0⟩, 0⟩ ∧
     get_lat_long ⟨none, some ⟨8⟩⟩ (fun _ : String => GeoResult.ok [⟨45, 4⟩]) ⟨[], 0⟩ "Lyon" =
       ⟨.error (.Database ⟨8⟩), ⟨[], 0⟩, 1⟩) :=
  ⟨⟨rfl, rfl, rfl, rfl, rfl⟩,
   (c4_storage_failure ⟨some ⟨7⟩, none⟩ _ _ _ ⟨7⟩ ⟨45, 4⟩ []).1 rfl,
   (c4_storage_failure ⟨none, some ⟨8⟩⟩ _ _ _ ⟨8⟩ ⟨45, 4⟩ []).2 rfl rfl rfl rfl⟩

/-- C5: a network/parse failure of the geocoding exchange yields an empty
candidate (`fetch_lat_long` returns `none`), so on a miss `get_lat_long`
fails with `NoResultsFound`, producing exactly the same result as a
genuine zero-result response. -/
theorem c5_network_error_as_not_found
    (db : DbFaults) (geoNet geoEmpty : String → GeoResult) (store : Store)
    (name : String)
    (hdb : db.lookupErr = none)
    (hmiss : lookupCity store.rows name = none)
    (hnet : geoNet name = .netErr)
    (hempty : geoEmpty name = .ok []) :
    fetch_lat_long geoNet name = none ∧
    get_lat_long db geoNet store name = ⟨.error .NoResultsFound, store, 1⟩ ∧
    get_lat_long db geoNet store name = get_lat_long db geoEmpty store name := by
  have h1 : fetch_lat_long geoNet name = none := by simp [fetch_lat_long, hnet]
  have h2 : get_lat_long db geoNet store name = ⟨.error .NoResultsFound, store, 1⟩ :=
    get_lat_long_no_candidates hdb hmiss h1
  have h3 : get_lat_long db geoEmpty store name = ⟨.error .NoResultsFound, store, 1⟩ :=
    get_lat_long_no_candidates hdb hmiss (by simp [fetch_lat_long, hempty])
  exact ⟨h1, h2, h2.trans h3.symm⟩

/-- C5 witness: a failing network exchange and a zero-result exchange
produce identical outcomes for "Lyon". -/
theorem c5_witness :
    ((⟨none, none⟩ : DbFaults).lookupErr = none ∧
     lookupCity (⟨[], 0⟩ : Store).rows "Lyon" = none ∧
     (fun _ : String => GeoResult.netErr) "Lyon" = .netErr ∧
     (fun _ : String => GeoResult.ok []) "Lyon" = .ok []) ∧
    (fetch_lat_long (fun _ : String => GeoResult.netErr) "Lyon" = none ∧
     get_lat_long ⟨none, none⟩ (fun _ : String => GeoResult.netErr) ⟨[], 0⟩ "Lyon" =
       ⟨.error .NoResultsFound, ⟨[], 0⟩, 1⟩ ∧
     get_lat_long ⟨none, none⟩ (fun _ : String => GeoResult.netErr) ⟨[], 0⟩ "Lyon" =
       get_lat_long ⟨none, none⟩ (fun _ : String => GeoResult.ok []) ⟨[], 0⟩ "Lyon") :=
  ⟨⟨rfl, rfl, rfl, rfl⟩,
   c5_network_error_as_not_found _ _ _ _ _ rfl rfl rfl rfl⟩

/-- C6 counterexample: the endpoint built by `fetch_lat_long` for the
city name "a&b" is not the endpoint with the URL-escaped name; the name
is interpolated verbatim (the `&` is not escaped to `%26`). -/
theorem c6_counterexample :
    fetch_endpoint "a&b" ≠ geoUrlPrefix ++ urlEscape "a&b" ++ geoUrlSuffix := by
  decide

/-- C6 (amended): for every city name, the geocoding request is an HTTPS
GET whose query parameter carries the city name verbatim — no
URL-escaping is applied to it. -/
theorem c6_https_get_verbatim_name (city : String) :
    (fetch_request city).method = "GET" ∧
    (fetch_request city).url = geoUrlPrefix ++ city ++ geoUrlSuffix ∧
    "https://".data <+: (fetch_request city).url.data := by
  refine ⟨rfl, rfl, ?_⟩
  show "https://".data <+: (geoUrlPrefix ++ city ++ geoUrlSuffix).data
  rw [String.data_append, String.data_append, List.append_assoc]
  exact (show "https://".data <+: geoUrlPrefix.data by decide).trans
    (List.prefix_append _ _)

theorem zip_get?_eq {α β : Type} (l₁ : List α) (l₂ : List β) (i : Nat) :
    (l₁.zip l₂).get? i = (l₁.get? i).bind fun a => (l₂.get? i).map fun b => (a, b) := by
  induction l₁ generalizing l₂ i with
  | nil => simp
  | cons a t ih =>
    cases l₂ with
    | nil => simp
    | cons b t2 =>
      cases i with
      | zero => simp
      | succ n => simpa using ih t2 n

/-- C7: the rendered forecast series is the pairwise zip of the time and
temperature sequences — entry `i` pairs `time[i]` with
`temperature_2m[i]` — and its length is the minimum of the two lengths,
so a mismatch silently truncates to the shorter sequence. -/
theorem c7_series_pairing (city : String) (resp : WeatherResponse) :
    (WeatherView.new city resp).forecasts.length
        = min resp.hourly.time.length resp.hourly.temperature_2m.length ∧
    ∀ i : Nat, (WeatherView.new city resp).forecasts.get? i
        = (resp.hourly.time.get? i).bind fun d =>
            (resp.hourly.temperature_2m.get? i).map fun t => ⟨d, t⟩ := by
  constructor
  · simp [WeatherView.new]
  · intro i
    simp only [WeatherView.new, List.get?_map, zip_get?_eq]
    cases resp.hourly.time.get? i <;> cases resp.hourly.temperature_2m.get? i <;> simp

theorem from_request_parts_eq (u p : String) :
    from_request_parts (some (u, p)) =
      if u = "forecast" ∧ p = "forecast" then .ok () else .error .Unauthorized := by
  unfold from_request_parts
  split
  · simp_all
  · rename_i u2 p2 heq
    obtain ⟨h1, h2⟩ : u = u2 ∧ p = p2 := by simpa using heq
    subst h1
    subst h2
    split
    · simp_all
    · rename_i h
      rw [if_neg]
      intro hc
      exact h hc.1 hc.2

/-- C8: the credential check grants access exactly for the fixed pair
("forecast", "forecast"); a missing/unparseable header and every other
pair (including empty credentials) are denied with `Unauthorized`, whose
response carries the `WWW-Authenticate: Basic ...` challenge header. -/
theorem c8_access_control :
    (∀ u p : String,
       from_request_parts (some (u, p)) = .ok () ↔ u = "forecast" ∧ p = "forecast") ∧
    from_request_parts none = .error .Unauthorized ∧
    (∀ u p : String, ¬(u = "forecast" ∧ p = "forecast") →
       from_request_parts (some (u, p)) = .error .Unauthorized) ∧
    "Basic".data <+: AUTH_SCHEME_VALUE.data ∧
    (WWW_AUTHENTICATE, AUTH_SCHEME_VALUE) ∈ Error.Unauthorized.into_response.headers := by
  refine ⟨?_, rfl, ?_, by decide, by simp [Error.into_response]⟩
  · intro u p
    rw [from_request_parts_eq]
    constructor
    · intro h
      by_contra hc
      rw [if_neg hc] at h
      exact Except.noConfusion h
    · intro h
      rw [if_pos h]
  · intro u p h
    rw [from_request_parts_eq, if_neg h]

/-- C8 witness: empty credentials are denied. -/
theorem c8_witness :
    ¬("" = "forecast" ∧ "" = "forecast") ∧
    from_request_parts (some ("", "")) = .error .Unauthorized :=
  ⟨by decide, c8_access_control.2.2.1 "" "" (by decide)⟩

/-- C9: names are compared verbatim as cache keys: a store holding only a
record for `n2` misses on a different name `n1` (even one differing only
in case), the resolver then performs a geocoding call, and afterwards the
two names hold separate records. -/
theorem c9_case_sensitive_keys
    (geo : String → GeoResult) (store : Store) (n1 n2 : String)
    (c : LatLong) (cs : List LatLong) (i : Nat) (a b : Rat)
    (hne : n2 ≠ n1)
    (hrows : store.rows = [⟨i, n2, a, b⟩])
    (hgeo : geo n1 = .ok (c :: cs)) :
    lookupCity store.rows n1 = none ∧
    (get_lat_long ⟨none, none⟩ geo store n1).geoCalls = 1 ∧
    lookupCity (get_lat_long ⟨none, none⟩ geo store n1).store.rows n1 = some c ∧
    lookupCity (get_lat_long ⟨none, none⟩ geo store n1).store.rows n2 = some ⟨a, b⟩ := by
  have hmiss : lookupCity store.rows n1 = none := by
    rw [hrows]
    simp [lookupCity, hne]
  have hres : get_lat_long ⟨none, none⟩ geo store n1 =
      ⟨.ok c, ⟨store.rows ++ [⟨store.nextId, n1, c.lat, c.lng⟩], store.nextId + 1⟩, 1⟩ := by
    simp [get_lat_long, fetch_lat_long, hmiss, hgeo]
  refine ⟨hmiss, by rw [hres], ?_, ?_⟩
  · rw [hres]
    exact lookupCity_append_key _ hmiss rfl
  · rw [hres]
    show lookupCity (store.rows ++ [⟨store.nextId, n1, c.lat, c.lng⟩]) n2 = some ⟨a, b⟩
    rw [hrows]
    simp [lookupCity]

/-- C9 witness: "paris" and "Paris" are distinct keys. -/
theorem c9_witness :
    ("Paris" ≠ "paris" ∧
     (⟨[⟨0, "Paris", 9, 2⟩], 1⟩ : Store).rows = [⟨0, "Paris", 9, 2⟩] ∧
     (fun _ : String => GeoResult.ok [⟨45, 4⟩]) "paris" = .ok (⟨45, 4⟩ :: [])) ∧
    (lookupCity (⟨[⟨0, "Paris", 9, 2⟩], 1⟩ : Store).rows "paris" = none ∧
     (get_lat_long ⟨none, none⟩ (fun _ : String => GeoResult.ok [⟨45, 4⟩])
        ⟨[⟨0, "Paris", 9, 2⟩], 1⟩ "paris").geoCalls = 1 ∧
     lookupCity (get_lat_long ⟨none, none⟩ (fun _ : String => GeoResult.ok [⟨45, 4⟩])
        ⟨[⟨0, "Paris", 9, 2⟩], 1⟩ "paris").store.rows "paris" = some ⟨45, 4⟩ ∧
     lookupCity (get_lat_long ⟨none, none⟩ (fun _ : String => GeoResult.ok [⟨45, 4⟩])
        ⟨[⟨0, "Paris", 9, 2⟩], 1⟩ "paris").store.rows "Paris" = some ⟨9, 2⟩) :=
  ⟨⟨by decide, rfl, rfl⟩,
   c9_case_sensitive_keys _ _ _ _ _ _ _ _ _ (by decide) rfl rfl⟩

/-- C10: after a granted credential check, the stats endpoint returns the
names of the rows sorted by id descending, truncated to the first 10:
at most 10 names, most recently inserted first, the rest omitted. -/
theorem c10_stats_recent_cities
    (auth : Option (String × String)) (store : Store)
    (hauth : from_request_parts auth = .ok ()) :
    stats auth none store = .ok (statsQuery store) ∧
    (statsQuery store).length ≤ 10 ∧
    statsQuery store = ((sortByIdDesc store.rows).take 10).map Row.name ∧
    (sortByIdDesc store.rows).Perm store.rows ∧
    (sortByIdDesc store.rows).Pairwise rowGe := by
  refine ⟨by simp [stats, hauth], ?_, ?_,
    List.perm_insertionSort rowGe store.rows, ?_⟩
  · exact List.length_take_le _ _
  · exact (List.map_take _ _ _).symm
  · exact List.sorted_insertionSort rowGe store.rows

/-- C10 witness: with valid credentials and three stored cities the
endpoint lists them newest-first. -/
theorem c10_witness :
    from_request_parts (some ("forecast", "forecast")) = .ok () ∧
    (stats (some ("forecast", "forecast")) none
        ⟨[⟨0, "a", 1, 1⟩, ⟨1, "b", 2, 2⟩, ⟨2, "c", 3, 3⟩], 3⟩ =
      .ok (statsQuery ⟨[⟨0, "a", 1, 1⟩, ⟨1, "b", 2, 2⟩, ⟨2, "c", 3, 3⟩], 3⟩) ∧
     (statsQuery ⟨[⟨0, "a", 1, 1⟩, ⟨1, "b", 2, 2⟩, ⟨2, "c", 3, 3⟩], 3⟩).length ≤ 10 ∧
     statsQuery ⟨[⟨0, "a", 1, 1⟩, ⟨1, "b", 2, 2⟩, ⟨2, "c", 3, 3⟩], 3⟩ =
       ((sortByIdDesc [⟨0, "a", 1, 1⟩, ⟨1, "b", 2, 2⟩, ⟨2, "c", 3, 3⟩]).take 10).map Row.name ∧
     (sortByIdDesc (⟨[⟨0, "a", 1, 1⟩, ⟨1, "b", 2, 2⟩, ⟨2, "c", 3, 3⟩], 3⟩ : Store).rows).Perm
       (⟨[⟨0, "a", 1, 1⟩, ⟨1, "b", 2, 2⟩, ⟨2, "c", 3, 3⟩], 3⟩ : Store).rows ∧
     (sortByIdDesc (⟨[⟨0, "a", 1, 1⟩, ⟨1, "b", 2, 2⟩, ⟨2, "c", 3, 3⟩], 3⟩ : Store).rows).Pairwise
       rowGe) :=
  ⟨rfl, c10_stats_recent_cities _ _ rfl⟩

end Forecast
